import Mathlib

/-!
Shallow embedding of the CRUD e-commerce backend (FastAPI + SQLAlchemy source
under src/app) and proofs about its entity lifecycle, pagination, cart,
review, promotion and authentication behaviour.

The relational store is modelled as lists of rows; ids and timestamps are
naturals, money and quantities are integers.  Each endpoint handler becomes a
pure function from a `Store` (plus the request's parameters, the
authenticated user's id, the generated primary key and the current time where
the source consults them) to `Except ApiError` of its result; a returned
`Store` is the state after the handler's commit, and an `Except.error` result
commits nothing, mirroring a raised `HTTPException` before `db.commit()`.
-/

namespace Shop

/-- HTTP-level failures raised by the handlers (`HTTPException` in the
source): 404, 400, 401, 403. -/
inductive ApiError where
  | notFound (detail : String)
  | badRequest (detail : String)
  | unauthorized
  | forbidden
deriving Repr, DecidableEq

/-- `categories` table (src/app/db/base.py, class Category), with the
timestamp/soft-delete mixin columns. -/
structure Category where
  category_id : Nat
  name : String
  created_at : Nat
  updated_at : Nat
  deleted_at : Option Nat
deriving Repr, DecidableEq

/-- `products` table (src/app/db/base.py, class Product). -/
structure Product where
  product_id : Nat
  name : String
  category_id : Nat
  price : Int
  rating : Int
  created_at : Nat
  updated_at : Nat
  deleted_at : Option Nat
deriving Repr, DecidableEq

/-- `reviews` table (src/app/db/base.py, class Review). -/
structure Review where
  review_id : Nat
  user_id : Nat
  product_id : Nat
  text : String
  rating : Int
  created_at : Nat
  updated_at : Nat
  deleted_at : Option Nat
deriving Repr, DecidableEq

/-- `cart_items` table (src/app/db/base.py, class CartItem).  It is the one
entity class that does NOT extend `TimestampSoftDeleteMixin`: its only
columns are the primary key, the two foreign keys and the quantity. -/
structure CartItem where
  cart_item_id : Nat
  user_id : Nat
  product_id : Nat
  quantity : Int
deriving Repr, DecidableEq

/-- `promotions` table (src/app/db/base.py, class Promotion). -/
structure Promotion where
  promotion_id : Nat
  name : String
  description : String
  image_path : Option String
  image_url : Option String
  url : Option String
  start_date : Nat
  end_date : Nat
  created_at : Nat
  updated_at : Nat
  deleted_at : Option Nat
deriving Repr, DecidableEq

/-- One row of the `promotion_products` association table. -/
structure PromoLink where
  promotion_id : Nat
  product_id : Nat
deriving Repr, DecidableEq

/-- `user_tokens` table (src/app/db/base.py, class UserToken). -/
structure UserToken where
  token_id : Nat
  expired_at : Nat
  user_id : Nat
  created_at : Nat
  updated_at : Nat
  deleted_at : Option Nat
deriving Repr, DecidableEq

/-- `UserToken.is_expired` (src/app/db/base.py): `self.expired_at < dt.now()`. -/
def UserToken.is_expired (t : UserToken) (now : Nat) : Bool :=
  decide (t.expired_at < now)

/-- The relational database: one list of rows per mapped table. -/
structure Store where
  categories : List Category
  products : List Product
  reviews : List Review
  cartItems : List CartItem
  promotions : List Promotion
  promoLinks : List PromoLink
  tokens : List UserToken
deriving Repr, DecidableEq

/-- Shape of every paginated list response
(src/app/schemas/pagination.py, class PaginatedResponse). -/
structure PaginatedResponse (α : Type) where
  items : List α
  total : Nat
  page : Nat
  page_size : Nat
  pages : Nat
deriving Repr, DecidableEq

/-- Whether the pattern is a prefix of the character list. -/
def startsWithChars : List Char → List Char → Bool
  | [], _ => true
  | _ :: _, [] => false
  | a :: as, b :: bs => a == b && startsWithChars as bs

/-- Whether the pattern occurs as a contiguous sublist. -/
def hasSubChars (pat : List Char) : List Char → Bool
  | [] => startsWithChars pat []
  | b :: bs => startsWithChars pat (b :: bs) || hasSubChars pat bs

/-- SQL `ILIKE` with the pattern built as percent, text, percent in the
source: case-insensitive substring match. -/
def ilike (hay sub : String) : Bool :=
  hasSubChars sub.toLower.toList hay.toLower.toList

/-- Python truthiness of an optional string parameter (`if name:`): present
and non-empty. -/
def pyTruthyStr : Option String → Bool
  | none => false
  | some s => s ≠ ""

/-- Python truthiness of an optional UUID parameter (`if category_id:`): a
UUID object is always truthy, so this is presence. -/
def pyTruthyId : Option Nat → Bool
  | none => false
  | some _ => true

/-- Python truthiness of an optional integer parameter (`if min_rating:`):
present and non-zero. -/
def pyTruthyInt : Option Int → Bool
  | none => false
  | some i => i ≠ 0

/-! ## Pagination parameter validation (src/app/schemas/pagination.py and
src/app/api/endpoints/review.py) -/

/-- Translated from `PaginationParams` (src/app/schemas/pagination.py):
`page: int = 1` and `page_size: int = 10` carry no field constraints, so the
schema accepts every pair of integers. -/
def paginationParamsOk (_page _pageSize : Int) : Bool := true

/-- Translated from the review listing signatures
(src/app/api/endpoints/review.py): `page: int = Query(1, ge=1)` and
`page_size: int = Query(10, ge=1, le=100)`. -/
def reviewQueryParamsOk (page pageSize : Int) : Bool :=
  decide (1 ≤ page) && decide (1 ≤ pageSize) && decide (pageSize ≤ 100)

/-! ## Product endpoints (src/app/api/endpoints/product.py) -/

/-- Request body of `POST /product` (src/app/schemas/product.py,
ProductCreate). -/
structure ProductCreate where
  name : String
  price : Int
  category_id : Nat
deriving Repr, DecidableEq

/-- Request body of `PUT /product/{id}` (src/app/schemas/product.py,
ProductUpdate): every field optional. -/
structure ProductUpdate where
  name : Option String
  price : Option Int
  category_id : Option Nat
deriving Repr, DecidableEq

/-- `create_product`: the category existence pre-check selects by
`category_id` only (the source applies no `deleted_at` filter there), then
inserts the product with rating defaulted to 0. -/
def create_product (st : Store) (data : ProductCreate) (newId now : Nat) :
    Except ApiError (Store × Product) :=
  match st.categories.find? (fun c => c.category_id == data.category_id) with
  | none =>
    let cid := data.category_id
    .error (.notFound s!"Category with ID {cid} not found")
  | some _ =>
    let p : Product :=
      { product_id := newId, name := data.name,
        category_id := data.category_id, price := data.price, rating := 0,
        created_at := now, updated_at := now, deleted_at := none }
    .ok ({ st with products := st.products ++ [p] }, p)

/-- Combined filter predicate of `list_products`: the source applies the same
conditions to the item query and the count query. -/
def productListPred (name : Option String) (minPrice maxPrice minRating : Option Int)
    (categoryId : Option Nat) (p : Product) : Bool :=
  (if pyTruthyStr name then ilike p.name (name.getD "") else true) &&
  (match minPrice with | some v => decide (v ≤ p.price) | none => true) &&
  (match maxPrice with | some v => decide (p.price ≤ v) | none => true) &&
  (match minRating with | some v => decide (v ≤ p.rating) | none => true) &&
  (if pyTruthyId categoryId then p.category_id == categoryId.getD 0 else true)

/-- `list_products` (`GET /product`): non-deleted rows, optional filters,
count, then `offset ((page-1)*page_size)` and `limit page_size`;
`pages = (total + page_size - 1) // page_size`. -/
def list_products (st : Store) (name : Option String)
    (minPrice maxPrice minRating : Option Int) (categoryId : Option Nat)
    (page pageSize : Nat) : PaginatedResponse Product :=
  let base := st.products.filter (fun p => p.deleted_at == none)
  let filtered := base.filter (productListPred name minPrice maxPrice minRating categoryId)
  let total := filtered.length
  let items := (filtered.drop ((page - 1) * pageSize)).take pageSize
  { items := items, total := total, page := page, page_size := pageSize,
    pages := (total + pageSize - 1) / pageSize }

/-- `get_product` (`GET /product/{id}`): select by id with the
`deleted_at IS NULL` filter, 404 when absent. -/
def get_product (st : Store) (pid : Nat) : Except ApiError Product :=
  match st.products.find? (fun p => p.product_id == pid && p.deleted_at == none) with
  | none => .error (.notFound s!"Product with ID {pid} not found")
  | some p => .ok p

/-- `update_product` (`PUT /product/{id}`): fetch the live row (404
otherwise); when a different `category_id` is supplied, pre-check that the
category exists — again with no `deleted_at` filter; apply the provided
fields and refresh `updated_at`. -/
def update_product (st : Store) (pid : Nat) (data : ProductUpdate) (now : Nat) :
    Except ApiError (Store × Product) :=
  match st.products.find? (fun p => p.product_id == pid && p.deleted_at == none) with
  | none => .error (.notFound s!"Product with ID {pid} not found")
  | some p =>
    let missingCat : Bool :=
      match data.category_id with
      | some cid =>
        cid != p.category_id &&
          (st.categories.find? (fun (c : Category) => c.category_id == cid)).isNone
      | none => false
    match data.category_id, missingCat with
    | some cid, true => .error (.notFound s!"Category with ID {cid} not found")
    | _, _ =>
      let p2 : Product :=
        { p with
          name := data.name.getD p.name,
          price := data.price.getD p.price,
          category_id := data.category_id.getD p.category_id,
          updated_at := now }
      let rows := st.products.map (fun (q : Product) =>
        if q.product_id == pid && q.deleted_at == none then p2 else q)
      .ok ({ st with products := rows }, p2)

/-- `delete_product` (`DELETE /product/{id}`): fetch the live row (404
otherwise) and set `deleted_at` to the current time; the row is kept. -/
def delete_product (st : Store) (pid now : Nat) : Except ApiError Store :=
  match st.products.find? (fun p => p.product_id == pid && p.deleted_at == none) with
  | none => .error (.notFound s!"Product with ID {pid} not found")
  | some _ =>
    .ok { st with products := st.products.map (fun p =>
      if p.product_id == pid && p.deleted_at == none
      then { p with deleted_at := some now } else p) }

/-! ## Category endpoints (src/app/api/endpoints/category.py) -/

/-- `get_categories` (`GET /category`): non-deleted rows ordered by name,
then offset/limit; the count ignores the slicing. -/
def get_categories (st : Store) (page pageSize : Nat) : PaginatedResponse Category :=
  let live := st.categories.filter (fun c => c.deleted_at == none)
  let total := live.length
  let sorted := live.mergeSort (fun a b => decide (a.name ≤ b.name))
  let items := (sorted.drop ((page - 1) * pageSize)).take pageSize
  { items := items, total := total, page := page, page_size := pageSize,
    pages := (total + pageSize - 1) / pageSize }

/-- `get_category` (`GET /category/{id}`). -/
def get_category (st : Store) (cid : Nat) : Except ApiError Category :=
  match st.categories.find? (fun c => c.category_id == cid && c.deleted_at == none) with
  | none => .error (.notFound s!"Category with ID {cid} not found")
  | some c => .ok c

/-- `delete_category` (`DELETE /category/{id}`): soft delete of the live
row. -/
def delete_category (st : Store) (cid now : Nat) : Except ApiError Store :=
  match st.categories.find? (fun c => c.category_id == cid && c.deleted_at == none) with
  | none => .error (.notFound s!"Category with ID {cid} not found")
  | some _ =>
    .ok { st with categories := st.categories.map (fun c =>
      if c.category_id == cid && c.deleted_at == none
      then { c with deleted_at := some now } else c) }

/-! ## Review endpoints (src/app/api/endpoints/review.py) -/

/-- Request body of `POST /review` (src/app/schemas/review.py,
ReviewCreate). -/
structure ReviewCreate where
  product_id : Nat
  text : String
  rating : Int
deriving Repr, DecidableEq

/-- `create_review`: live-product pre-check (404), duplicate check for a
live review by the same user on the same product (400 "You have already
reviewed this product"), then insert. -/
def create_review (st : Store) (userId : Nat) (data : ReviewCreate) (newId now : Nat) :
    Except ApiError (Store × Review) :=
  let pid := data.product_id
  match st.products.find? (fun p => p.product_id == pid && p.deleted_at == none) with
  | none => .error (.notFound s!"Product with ID {pid} not found")
  | some _ =>
    match st.reviews.find? (fun r =>
        r.product_id == pid && r.user_id == userId && r.deleted_at == none) with
    | some _ => .error (.badRequest "You have already reviewed this product")
    | none =>
      let r : Review :=
        { review_id := newId, user_id := userId, product_id := pid,
          text := data.text, rating := data.rating,
          created_at := now, updated_at := now, deleted_at := none }
      .ok ({ st with reviews := st.reviews ++ [r] }, r)

/-- Combined filter predicate of `list_reviews` (deleted filter, optional
product, user and rating bounds; the integer bounds go through Python
truthiness). -/
def reviewListPred (productId userId : Option Nat) (minRating maxRating : Option Int)
    (r : Review) : Bool :=
  r.deleted_at == none &&
  (if pyTruthyId productId then r.product_id == productId.getD 0 else true) &&
  (if pyTruthyId userId then r.user_id == userId.getD 0 else true) &&
  (if pyTruthyInt minRating then decide (minRating.getD 0 ≤ r.rating) else true) &&
  (if pyTruthyInt maxRating then decide (r.rating ≤ maxRating.getD 0) else true)

/-- `list_reviews` (`GET /review`): filter, count, order by `created_at`
descending, then offset/limit. -/
def list_reviews (st : Store) (productId userId : Option Nat)
    (minRating maxRating : Option Int) (page pageSize : Nat) :
    PaginatedResponse Review :=
  let filtered := st.reviews.filter (reviewListPred productId userId minRating maxRating)
  let total := filtered.length
  let sorted := filtered.mergeSort (fun a b => decide (b.created_at ≤ a.created_at))
  let items := (sorted.drop ((page - 1) * pageSize)).take pageSize
  { items := items, total := total, page := page, page_size := pageSize,
    pages := (total + pageSize - 1) / pageSize }

/-- `get_review` (`GET /review/{id}`). -/
def get_review (st : Store) (rid : Nat) : Except ApiError Review :=
  match st.reviews.find? (fun r => r.review_id == rid && r.deleted_at == none) with
  | none => .error (.notFound s!"Review with ID {rid} not found")
  | some r => .ok r

/-- `delete_review` (`DELETE /review/{id}`): fetch the live row (404),
author check (403), then soft delete. -/
def delete_review (st : Store) (userId rid now : Nat) : Except ApiError Store :=
  match st.reviews.find? (fun r => r.review_id == rid && r.deleted_at == none) with
  | none => .error (.notFound s!"Review with ID {rid} not found")
  | some r =>
    if r.user_id != userId then .error .forbidden
    else
      .ok { st with reviews := st.reviews.map (fun q =>
        if q.review_id == rid && q.deleted_at == none
        then { q with deleted_at := some now } else q) }

/-! ## Cart endpoints (src/app/api/endpoints/cart.py) -/

/-- Request body of `POST /cart/items` (src/app/schemas/cart.py,
CartItemCreate). -/
structure CartItemCreate where
  product_id : Nat
  quantity : Int
deriving Repr, DecidableEq

/-- `add_to_cart` (`POST /cart/items`): live-product pre-check (404); when a
row for this user and product already exists its quantity is increased,
otherwise a new row is inserted. -/
def add_to_cart (st : Store) (userId : Nat) (item : CartItemCreate) (newId : Nat) :
    Except ApiError (Store × CartItem) :=
  let pid := item.product_id
  match st.products.find? (fun p => p.product_id == pid && p.deleted_at == none) with
  | none => .error (.notFound s!"Product with ID {pid} not found")
  | some _ =>
    match st.cartItems.find? (fun ci => ci.user_id == userId && ci.product_id == pid) with
    | some existing =>
      let updated : CartItem :=
        { existing with quantity := existing.quantity + item.quantity }
      let rows := st.cartItems.map (fun ci =>
        if ci.user_id == userId && ci.product_id == pid
        then { ci with quantity := ci.quantity + item.quantity } else ci)
      .ok ({ st with cartItems := rows }, updated)
    | none =>
      let ci : CartItem :=
        { cart_item_id := newId, user_id := userId,
          product_id := pid, quantity := item.quantity }
      .ok ({ st with cartItems := st.cartItems ++ [ci] }, ci)

/-- Combined filter predicate of `get_cart_items` (current user's rows,
optional product and quantity bounds through Python truthiness). -/
def cartListPred (userId : Nat) (productId : Option Nat)
    (minQuantity maxQuantity : Option Int) (ci : CartItem) : Bool :=
  ci.user_id == userId &&
  (if pyTruthyId productId then ci.product_id == productId.getD 0 else true) &&
  (if pyTruthyInt minQuantity then decide (minQuantity.getD 0 ≤ ci.quantity) else true) &&
  (if pyTruthyInt maxQuantity then decide (ci.quantity ≤ maxQuantity.getD 0) else true)

/-- `get_cart_items` (`GET /cart/items`): filter, count via a subquery over
the same filtered query, then offset/limit. -/
def get_cart_items (st : Store) (userId : Nat) (productId : Option Nat)
    (minQuantity maxQuantity : Option Int) (page pageSize : Nat) :
    PaginatedResponse CartItem :=
  let filtered := st.cartItems.filter (cartListPred userId productId minQuantity maxQuantity)
  let total := filtered.length
  let items := (filtered.drop ((page - 1) * pageSize)).take pageSize
  { items := items, total := total, page := page, page_size := pageSize,
    pages := (total + pageSize - 1) / pageSize }

/-- `remove_from_cart` (`DELETE /cart/items/{id}`): fetch the row by id and
owner (404 otherwise) and physically delete it (`db.delete`). -/
def remove_from_cart (st : Store) (userId cartItemId : Nat) : Except ApiError Store :=
  match st.cartItems.find? (fun ci =>
      ci.cart_item_id == cartItemId && ci.user_id == userId) with
  | none => .error (.notFound s!"Cart item with ID {cartItemId} not found")
  | some _ =>
    .ok { st with cartItems := st.cartItems.eraseP (fun ci =>
      ci.cart_item_id == cartItemId && ci.user_id == userId) }

/-- `clear_cart` (`DELETE /cart/items`): physically delete every row of the
current user; never fails. -/
def clear_cart (st : Store) (userId : Nat) : Store :=
  { st with cartItems := st.cartItems.filter (fun ci => !(ci.user_id == userId)) }

/-- SQL `SUM(...)`: `NULL` over the empty set, else the sum. -/
def sqlSum : List Int → Option Int
  | [] => none
  | v :: vs => some ((v :: vs).foldl (· + ·) 0)

/-- `get_cart_item_count` (`GET /cart/count`):
`SELECT SUM(quantity) WHERE user_id = ...`, with `result.scalar() or 0`
turning the empty-cart `NULL` into 0. -/
def get_cart_item_count (st : Store) (userId : Nat) : Int :=
  (sqlSum ((st.cartItems.filter (fun ci => ci.user_id == userId)).map
    (fun ci => ci.quantity))).getD 0

/-! ## Token gate (src/app/core/security.py) -/

/-- `get_token`: look the bearer credential up in `user_tokens`; 401 when
absent; on success the token row is returned and nothing is written. -/
def get_token (st : Store) (credential : Nat) : Except ApiError (Store × UserToken) :=
  match st.tokens.find? (fun t => t.token_id == credential) with
  | none => .error .unauthorized
  | some t => .ok (st, t)

/-- `get_token_if_not_expired`: as `get_token`, but also 401 when
`token.is_expired()`. -/
def get_token_if_not_expired (st : Store) (credential now : Nat) :
    Except ApiError (Store × UserToken) :=
  match st.tokens.find? (fun t => t.token_id == credential) with
  | none => .error .unauthorized
  | some t => if t.is_expired now then .error .unauthorized else .ok (st, t)

/-! ## Promotion endpoints (src/app/api/endpoints/promotion.py and the query
helpers of src/app/db/base.py) -/

/-- Request body of `POST /promotion` (src/app/schemas/promotion.py,
PromotionCreate); the base64 image upload is filesystem output and is left
out of the relational model. -/
structure PromotionCreate where
  name : String
  description : String
  url : Option String
  start_date : Nat
  end_date : Nat
  product_ids : List Nat
deriving Repr, DecidableEq

/-- Request body of `PUT /promotion/{id}` (src/app/schemas/promotion.py,
PromotionUpdate). -/
structure PromotionUpdate where
  name : Option String
  description : Option String
  url : Option String
  start_date : Option Nat
  end_date : Option Nat
  product_ids : Option (List Nat)
deriving Repr, DecidableEq

/-- `get_promotion_by_id` (src/app/db/base.py): select by primary key — the
source applies NO `deleted_at` filter here. -/
def get_promotion_by_id (st : Store) (pid : Nat) : Option Promotion :=
  st.promotions.find? (fun pr => pr.promotion_id == pid)

/-- `get_active_promotions` (src/app/db/base.py): live promotions whose date
range contains the current date. -/
def get_active_promotions (st : Store) (currentDate : Nat) : List Promotion :=
  st.promotions.filter (fun pr =>
    decide (pr.start_date ≤ currentDate) && decide (currentDate ≤ pr.end_date) &&
    pr.deleted_at == none)

/-- `get_promotions_for_product` (src/app/db/base.py): live promotions joined
through `promotion_products` on the given product. -/
def get_promotions_for_product (st : Store) (productId : Nat) : List Promotion :=
  st.promotions.filter (fun pr =>
    (st.promoLinks.any (fun l =>
      l.promotion_id == pr.promotion_id && l.product_id == productId)) &&
    pr.deleted_at == none)

/-- `db.get(Product, product_id)`: fetch by primary key, with no
`deleted_at` filter. -/
def dbGetProduct (st : Store) (pid : Nat) : Option Product :=
  st.products.find? (fun p => p.product_id == pid)

/-- `create_promotion` (`POST /promotion`): build the promotion, then for
each requested product id `db.get` it and append it when found — a missing
id is silently skipped; insert and commit. -/
def create_promotion (st : Store) (data : PromotionCreate) (newId now : Nat) :
    Store × Promotion :=
  let validIds := data.product_ids.filter (fun i => (dbGetProduct st i).isSome)
  let pr : Promotion :=
    { promotion_id := newId, name := data.name,
      description := data.description, image_path := none, image_url := none,
      url := data.url, start_date := data.start_date, end_date := data.end_date,
      created_at := now, updated_at := now, deleted_at := none }
  let st2 : Store :=
    { st with
      promotions := st.promotions ++ [pr],
      promoLinks := st.promoLinks ++ validIds.map (fun i => PromoLink.mk newId i) }
  (st2, pr)

/-- `list_promotions` (`GET /promotion`): live promotions, optional
active-only and product filters, count, then `offset skip` and
`limit limit`; returns (items, total). -/
def list_promotions (st : Store) (activeOnly : Bool) (productId : Option Nat)
    (skip limit : Nat) (now : Nat) : List Promotion × Nat :=
  let base := st.promotions.filter (fun (pr : Promotion) => pr.deleted_at == none)
  let f1 := if activeOnly then
      base.filter (fun pr =>
        decide (pr.start_date ≤ now) && decide (now ≤ pr.end_date))
    else base
  let f2 : List Promotion := match productId with
    | some pid => f1.filter (fun pr => st.promoLinks.any (fun l =>
        l.promotion_id == pr.promotion_id && l.product_id == pid))
    | none => f1
  ((f2.drop skip).take limit, f2.length)

/-- `get_promotions_by_product` (`GET /promotion/product/{id}`): the product
pre-check is a `db.get` by primary key (no `deleted_at` filter, so a
soft-deleted product passes), then the joined live promotions. -/
def get_promotions_by_product (st : Store) (productId : Nat) :
    Except ApiError (List Promotion) :=
  match dbGetProduct st productId with
  | none => .error (.notFound s!"Product with ID {productId} not found")
  | some _ => .ok (get_promotions_for_product st productId)

/-- `get_promotion` (`GET /promotion/{id}`): 404 only when no row with the
id exists at all — `get_promotion_by_id` does not filter `deleted_at`. -/
def get_promotion (st : Store) (pid : Nat) : Except ApiError Promotion :=
  match get_promotion_by_id st pid with
  | none => .error (.notFound s!"Promotion with ID {pid} not found")
  | some pr => .ok pr

/-- `update_promotion` (`PUT /promotion/{id}`): fetch via
`get_promotion_by_id` (404), overwrite the provided scalar fields; when
`product_ids` is provided, clear the association and re-add each id that
`db.get` finds — missing ids are silently skipped. -/
def update_promotion (st : Store) (pid : Nat) (data : PromotionUpdate) (now : Nat) :
    Except ApiError (Store × Promotion) :=
  match get_promotion_by_id st pid with
  | none => .error (.notFound s!"Promotion with ID {pid} not found")
  | some pr =>
    let pr2 : Promotion :=
      { pr with
        name := data.name.getD pr.name,
        description := data.description.getD pr.description,
        url := match data.url with | some u => some u | none => pr.url,
        start_date := data.start_date.getD pr.start_date,
        end_date := data.end_date.getD pr.end_date,
        updated_at := now }
    let links := match data.product_ids with
      | none => st.promoLinks
      | some ids =>
        (st.promoLinks.filter (fun l => !(l.promotion_id == pid))) ++
          (ids.filter (fun i => (dbGetProduct st i).isSome)).map
            (fun i => PromoLink.mk pid i)
    let rows := st.promotions.map (fun q => if q.promotion_id == pid then pr2 else q)
    .ok ({ st with promotions := rows, promoLinks := links }, pr2)

/-- `delete_promotion` (`DELETE /promotion/{id}`): fetch via
`get_promotion_by_id` (404) and set `deleted_at`; the row is kept. -/
def delete_promotion (st : Store) (pid now : Nat) : Except ApiError Store :=
  match get_promotion_by_id st pid with
  | none => .error (.notFound s!"Promotion with ID {pid} not found")
  | some _ =>
    .ok { st with promotions := st.promotions.map (fun pr =>
      if pr.promotion_id == pid then { pr with deleted_at := some now } else pr) }

/-- The product loop of `update_promotion_products`: `db.get` each id in
order; the first missing id aborts the whole operation with 400 naming that
id. -/
def lookupProducts (st : Store) : List Nat → Except ApiError (List Nat)
  | [] => .ok []
  | i :: rest =>
    match dbGetProduct st i with
    | some _ => (lookupProducts st rest).map (fun l => i :: l)
    | none => .error (.badRequest s!"Product with ID {i} not found")

/-- `update_promotion_products` (`POST /promotion/{id}/products`): fetch via
`get_promotion_by_id` (404); replace the association, but any missing
product id fails the entire operation with 400 (nothing is committed, so the
stored association is unchanged). -/
def update_promotion_products (st : Store) (pid : Nat) (productIds : List Nat)
    (now : Nat) : Except ApiError (Store × Promotion) :=
  match get_promotion_by_id st pid with
  | none => .error (.notFound s!"Promotion with ID {pid} not found")
  | some pr =>
    match lookupProducts st productIds with
    | .error e => .error e
    | .ok ids =>
      let pr2 : Promotion := { pr with updated_at := now }
      let rows := st.promotions.map (fun q => if q.promotion_id == pid then pr2 else q)
      let links := (st.promoLinks.filter (fun l => !(l.promotion_id == pid))) ++
        ids.map (fun i => PromoLink.mk pid i)
      .ok ({ st with promotions := rows, promoLinks := links }, pr2)

/-! ## Concrete rows and stores used by witnesses and counterexamples -/

/-- A live category. -/
def sampleCategory : Category :=
  { category_id := 10, name := "Tools", created_at := 0, updated_at := 0,
    deleted_at := none }

/-- A soft-deleted category. -/
def deletedCategory : Category :=
  { category_id := 20, name := "Old", created_at := 0, updated_at := 0,
    deleted_at := some 3 }

/-- A live product in the live category. -/
def sampleProduct : Product :=
  { product_id := 1, name := "Drill", category_id := 10, price := 19,
    rating := 0, created_at := 0, updated_at := 0, deleted_at := none }

/-- A soft-deleted product. -/
def deletedProduct : Product :=
  { product_id := 2, name := "Saw", category_id := 10, price := 25,
    rating := 4, created_at := 0, updated_at := 0, deleted_at := some 2 }

/-- A live review by user 7 on product 1. -/
def sampleReview : Review :=
  { review_id := 100, user_id := 7, product_id := 1, text := "ok", rating := 5,
    created_at := 0, updated_at := 0, deleted_at := none }

/-- A live promotion linked to product 1. -/
def samplePromotion : Promotion :=
  { promotion_id := 300, name := "Sale", description := "d", image_path := none,
    image_url := none, url := none, start_date := 0, end_date := 10,
    created_at := 0, updated_at := 0, deleted_at := none }

/-- A token for user 7 expiring at time 5. -/
def sampleToken : UserToken :=
  { token_id := 1000, expired_at := 5, user_id := 7, created_at := 0,
    updated_at := 0, deleted_at := none }

/-- The store the witnesses and counterexamples run on. -/
def sampleStore : Store :=
  { categories := [sampleCategory, deletedCategory],
    products := [sampleProduct, deletedProduct],
    reviews := [sampleReview],
    cartItems := [],
    promotions := [samplePromotion],
    promoLinks := [{ promotion_id := 300, product_id := 1 }],
    tokens := [sampleToken] }

/-- `sampleStore` after `delete_promotion` on promotion 300 at time 5. -/
def sampleStoreNoPromo : Store :=
  { sampleStore with promotions := [{ samplePromotion with deleted_at := some 5 }] }

/-- A cart row: user 7 holds 3 units of product 1. -/
def sampleCartItem : CartItem :=
  { cart_item_id := 50, user_id := 7, product_id := 1, quantity := 3 }

/-- `sampleStore` with one cart row for user 7. -/
def cartStore : Store :=
  { sampleStore with cartItems := [sampleCartItem] }

/-! ## General helper lemmas -/

/-- Folding addition from an accumulator is the accumulator plus the sum. -/
theorem foldl_add_eq_sum (l : List Int) (a : Int) : l.foldl (· + ·) a = a + l.sum := by
  induction l generalizing a with
  | nil => simp
  | cons x xs ih => simp only [List.foldl_cons, ih, List.sum_cons]; ring

/-- The Python expression `(L + ps - 1) // ps` is an upper bound for `L / ps`:
`ps` times it dominates `L`. -/
theorem le_mul_pages (L ps : Nat) (hps : 1 ≤ ps) : L ≤ ps * ((L + ps - 1) / ps) := by
  have hmod := Nat.div_add_mod (L + ps - 1) ps
  have hlt : (L + ps - 1) % ps < ps := Nat.mod_lt _ (by omega)
  omega

/-- Requesting a page beyond `pages = (len + ps - 1) / ps` drops the whole
list. -/
theorem drop_beyond_nil {α : Type} (l : List α) (page ps : Nat) (hps : 1 ≤ ps)
    (h : (l.length + ps - 1) / ps < page) : l.drop ((page - 1) * ps) = [] := by
  apply List.drop_eq_nil_of_le
  calc l.length ≤ ps * ((l.length + ps - 1) / ps) := le_mul_pages _ _ hps
    _ ≤ ps * (page - 1) := Nat.mul_le_mul_left _ (by omega)
    _ = (page - 1) * ps := Nat.mul_comm _ _

/-! ## Claim C2: pagination invariants -/

/-- C2: on every modelled paginated listing (`list_products`,
`get_categories`, `list_reviews`), with a positive page size, the items
slice has at most `page_size` elements, the `pages` field is the ceiling of
`total / page_size`, and a page beyond the last yields an empty items slice
with the unchanged total. -/
theorem C2_pagination (st : Store) (nm : Option String) (mp xp mr : Option Int)
    (cid pidF uidF : Option Nat) (mrr xrr : Option Int) (page pageSize : Nat)
    (hps : 1 ≤ pageSize) :
    ((list_products st nm mp xp mr cid page pageSize).items.length ≤ pageSize ∧
     (list_products st nm mp xp mr cid page pageSize).pages =
       (list_products st nm mp xp mr cid page pageSize).total ⌈/⌉ pageSize ∧
     ((list_products st nm mp xp mr cid page pageSize).pages < page →
       (list_products st nm mp xp mr cid page pageSize).items = [] ∧
       (list_products st nm mp xp mr cid page pageSize).total =
         (list_products st nm mp xp mr cid 1 pageSize).total)) ∧
    ((get_categories st page pageSize).items.length ≤ pageSize ∧
     (get_categories st page pageSize).pages =
       (get_categories st page pageSize).total ⌈/⌉ pageSize ∧
     ((get_categories st page pageSize).pages < page →
       (get_categories st page pageSize).items = [] ∧
       (get_categories st page pageSize).total = (get_categories st 1 pageSize).total)) ∧
    ((list_reviews st pidF uidF mrr xrr page pageSize).items.length ≤ pageSize ∧
     (list_reviews st pidF uidF mrr xrr page pageSize).pages =
       (list_reviews st pidF uidF mrr xrr page pageSize).total ⌈/⌉ pageSize ∧
     ((list_reviews st pidF uidF mrr xrr page pageSize).pages < page →
       (list_reviews st pidF uidF mrr xrr page pageSize).items = [] ∧
       (list_reviews st pidF uidF mrr xrr page pageSize).total =
         (list_reviews st pidF uidF mrr xrr 1 pageSize).total)) := by
  refine ⟨⟨?_, ?_, ?_⟩, ⟨?_, ?_, ?_⟩, ⟨?_, ?_, ?_⟩⟩
  · exact List.length_take_le _ _
  · exact (Nat.ceilDiv_eq_add_pred_div _ _).symm
  · intro h
    simp only [list_products] at h ⊢
    rw [drop_beyond_nil _ page pageSize hps h]
    exact ⟨List.take_nil, trivial⟩
  · exact List.length_take_le _ _
  · exact (Nat.ceilDiv_eq_add_pred_div _ _).symm
  · intro h
    simp only [get_categories] at h ⊢
    rw [drop_beyond_nil _ page pageSize hps (by rw [List.length_mergeSort]; exact h)]
    exact ⟨List.take_nil, trivial⟩
  · exact List.length_take_le _ _
  · exact (Nat.ceilDiv_eq_add_pred_div _ _).symm
  · intro h
    simp only [list_reviews] at h ⊢
    rw [drop_beyond_nil _ page pageSize hps (by rw [List.length_mergeSort]; exact h)]
    exact ⟨List.take_nil, trivial⟩

/-- C2 witness: the invariants hold concretely on `sampleStore` with
page 1 and page size 10. -/
theorem C2_pagination_witness :
    (list_products sampleStore none none none none none 1 10).items.length ≤ 10 ∧
    (get_categories sampleStore 1 10).pages =
      (get_categories sampleStore 1 10).total ⌈/⌉ 10 := by
  have h := C2_pagination sampleStore none none none none none none none none none 1 10
    (by decide)
  exact ⟨h.1.1, h.2.1.2.1⟩

/-! ## Claim C3: pagination parameter validation -/

/-- C3 counterexample: the shared `PaginationParams` schema (used by the
product, category and cart listings) accepts `page = 0` with
`page_size = 101` and also `page = -1` with `page_size = 0` — no bound is
declared, so such requests are not rejected as validation failures. -/
theorem C3_counterexample :
    paginationParamsOk 0 101 = true ∧ paginationParamsOk (-1) 0 = true :=
  ⟨rfl, rfl⟩

/-- C3, amended: only the review listing endpoints validate pagination
(`page ≥ 1`, `1 ≤ page_size ≤ 100`) and reject out-of-range values; the
shared `PaginationParams` schema used by the other paginated listings
declares no bounds and accepts every integer pair. -/
theorem C3_param_validation (page pageSize : Int) :
    (reviewQueryParamsOk page pageSize = true ↔
      1 ≤ page ∧ 1 ≤ pageSize ∧ pageSize ≤ 100) ∧
    paginationParamsOk page pageSize = true := by
  constructor
  · simp [reviewQueryParamsOk, Bool.and_eq_true, decide_eq_true_iff, and_assoc]
  · rfl

/-- C3 witness: the review validation rejects the very pair the shared
schema accepts. -/
theorem C3_param_validation_witness :
    reviewQueryParamsOk 0 101 = false ∧ paginationParamsOk 0 101 = true := by
  have h := C3_param_validation 0 101
  refine ⟨?_, h.2⟩
  cases hv : reviewQueryParamsOk 0 101 with
  | false => rfl
  | true => exact absurd (h.1.mp hv).1 (by decide)

/-! ## Claim C6: duplicate review -/

/-- C6: when the product is live and the user already holds a live review on
it, creating a second review fails with 400 "You have already reviewed this
product" (nothing is inserted: the handler raises before any write). -/
theorem C6_duplicate_review (st : Store) (u : Nat) (data : ReviewCreate) (newId now : Nat)
    (hp : (st.products.find? (fun p =>
      p.product_id == data.product_id && p.deleted_at == none)).isSome = true)
    (hr : (st.reviews.find? (fun r =>
      r.product_id == data.product_id && r.user_id == u &&
        r.deleted_at == none)).isSome = true) :
    create_review st u data newId now =
      .error (.badRequest "You have already reviewed this product") := by
  obtain ⟨p, hp2⟩ := Option.isSome_iff_exists.1 hp
  obtain ⟨r, hr2⟩ := Option.isSome_iff_exists.1 hr
  simp [create_review, hp2, hr2]

/-- C6 witness: user 7 already reviewed product 1 in `sampleStore`, so a
second review is rejected. -/
theorem C6_duplicate_review_witness :
    create_review sampleStore 7 { product_id := 1, text := "again", rating := 4 } 101 9 =
      .error (.badRequest "You have already reviewed this product") :=
  C6_duplicate_review sampleStore 7 { product_id := 1, text := "again", rating := 4 }
    101 9 (by rfl) (by rfl)

/-! ## Claim C7: the token gate -/

/-- C7: `get_token` fails 401 exactly when no token row matches the
credential, and on success returns the matching row with the store
unchanged; `get_token_if_not_expired` additionally fails 401 exactly when
the matched token is expired, where `is_expired` is `expired_at < now`. -/
theorem C7_token_gate (st : Store) (cred now : Nat) :
    (get_token st cred = .error .unauthorized ↔
      st.tokens.find? (fun t => t.token_id == cred) = none) ∧
    (∀ st2 t, get_token st cred = .ok (st2, t) →
      st2 = st ∧ st.tokens.find? (fun t2 => t2.token_id == cred) = some t) ∧
    (get_token_if_not_expired st cred now = .error .unauthorized ↔
      (st.tokens.find? (fun t => t.token_id == cred) = none ∨
       ∃ t, st.tokens.find? (fun t2 => t2.token_id == cred) = some t ∧
         t.expired_at < now)) ∧
    (∀ st2 t, get_token_if_not_expired st cred now = .ok (st2, t) →
      st2 = st ∧ t.is_expired now = false) ∧
    (∀ t : UserToken, t.is_expired now = true ↔ t.expired_at < now) := by
  refine ⟨?_, ?_, ?_, ?_, ?_⟩
  · cases hf : st.tokens.find? (fun t => t.token_id == cred) <;>
      simp [get_token, hf]
  · intro st2 t h
    cases hf : st.tokens.find? (fun t2 => t2.token_id == cred) with
    | none => simp [get_token, hf] at h
    | some t0 =>
      simp [get_token, hf] at h
      obtain ⟨h1, h2⟩ := h
      subst h1
      subst h2
      exact ⟨rfl, rfl⟩
  · cases hf : st.tokens.find? (fun t => t.token_id == cred) with
    | none => simp [get_token_if_not_expired, hf]
    | some t0 =>
      cases he : t0.is_expired now with
      | true =>
        have hlt : t0.expired_at < now := by simpa [UserToken.is_expired] using he
        simp [get_token_if_not_expired, hf, he, hlt]
      | false =>
        have hlt : ¬ t0.expired_at < now := by simpa [UserToken.is_expired] using he
        simp [get_token_if_not_expired, hf, he, hlt]
  · intro st2 t h
    cases hf : st.tokens.find? (fun t2 => t2.token_id == cred) with
    | none => simp [get_token_if_not_expired, hf] at h
    | some t0 =>
      cases he : t0.is_expired now with
      | true => simp [get_token_if_not_expired, hf, he] at h
      | false =>
        simp [get_token_if_not_expired, hf, he] at h
        obtain ⟨h1, h2⟩ := h
        subst h1
        subst h2
        exact ⟨rfl, he⟩
  · intro t
    simp [UserToken.is_expired]

/-- C7 witness: in `sampleStore` the token 1000 expires at time 5, so at
time 6 the strict gate rejects it while the plain gate accepts it. -/
theorem C7_token_gate_witness :
    get_token_if_not_expired sampleStore 1000 6 = .error .unauthorized := by
  have h := (C7_token_gate sampleStore 1000 6).2.2.1
  exact h.mpr (Or.inr ⟨sampleToken, by rfl, by decide⟩)

/-! ## Claim C9: cart count sums quantities -/

/-- C9: `get_cart_item_count` returns the sum of the `quantity` fields over
the user's cart rows (not their number), and 0 for an empty cart. -/
theorem C9_cart_count (st : Store) (u : Nat) :
    get_cart_item_count st u =
      ((st.cartItems.filter (fun ci => ci.user_id == u)).map
        (fun ci => ci.quantity)).sum ∧
    (st.cartItems.filter (fun ci => ci.user_id == u) = [] →
      get_cart_item_count st u = 0) := by
  constructor
  · cases hl : (st.cartItems.filter (fun ci => ci.user_id == u)).map
        (fun ci => ci.quantity) with
    | nil => simp [get_cart_item_count, sqlSum, hl]
    | cons v vs =>
      simp [get_cart_item_count, sqlSum, hl, foldl_add_eq_sum]
  · intro h
    simp [get_cart_item_count, sqlSum, h]

/-- C9 witness: user 7 has an empty cart in `sampleStore`, so the count is
0. -/
theorem C9_cart_count_witness : get_cart_item_count sampleStore 7 = 0 :=
  (C9_cart_count sampleStore 7).2 rfl

/-! ## Helper lemmas on soft-deleting maps -/

/-- After mapping a function that marks every live row with the given id and
leaves the others alone, no row passes the live-row-by-id lookup. -/
theorem marked_find?_none {α : Type} (idf : α → Nat) (delf : α → Option Nat)
    (f : α → α) (pid : Nat) (l : List α)
    (h1 : ∀ x, (idf x == pid && delf x == none) = true → delf (f x) ≠ none)
    (h2 : ∀ x, (idf x == pid && delf x == none) = false → f x = x) :
    (l.map f).find? (fun x => idf x == pid && delf x == none) = none := by
  rw [List.find?_eq_none]
  intro y hy
  obtain ⟨x, hx, rfl⟩ := List.mem_map.1 hy
  cases hc : (idf x == pid && delf x == none) with
  | true =>
    intro hcon
    simp only [Bool.and_eq_true, beq_iff_eq] at hcon
    exact h1 x hc hcon.2
  | false =>
    rw [h2 x hc]
    simp [hc]

/-- After the same marking map, every live row has a different id. -/
theorem marked_live_ne {α : Type} (idf : α → Nat) (delf : α → Option Nat)
    (f : α → α) (pid : Nat) (l : List α)
    (h1 : ∀ x, (idf x == pid && delf x == none) = true → delf (f x) ≠ none)
    (h2 : ∀ x, (idf x == pid && delf x == none) = false → f x = x)
    (y : α) (hy : y ∈ l.map f) (hlive : delf y = none) : idf y ≠ pid := by
  obtain ⟨x, hx, rfl⟩ := List.mem_map.1 hy
  cases hc : (idf x == pid && delf x == none) with
  | true => exact absurd hlive (h1 x hc)
  | false =>
    rw [h2 x hc] at hlive ⊢
    have hip : (idf x == pid) = false := by
      cases hip2 : (idf x == pid) with
      | false => rfl
      | true => rw [hip2, hlive] at hc; simp at hc
    simpa using hip

/-- Marking preserves where a predicate it does not touch finds its first
match. -/
theorem find?_map_same {α : Type} (p : α → Bool) (f : α → α) (l : List α)
    (h : ∀ x, p (f x) = p x) : (l.map f).find? p = (l.find? p).map f := by
  induction l with
  | nil => rfl
  | cons a t ih =>
    cases hp : p a with
    | true => simp [List.find?_cons, h a, hp]
    | false => simp [List.find?_cons, h a, hp, ih]

/-- Variant of `marked_live_ne` for a map that marks every row with the
given id, live or not (the promotion delete has no live filter). -/
theorem marked_all_live_ne {α : Type} (idf : α → Nat) (delf : α → Option Nat)
    (f : α → α) (pid : Nat) (l : List α)
    (h1 : ∀ x, (idf x == pid) = true → delf (f x) ≠ none)
    (h2 : ∀ x, (idf x == pid) = false → f x = x)
    (y : α) (hy : y ∈ l.map f) (hlive : delf y = none) : idf y ≠ pid := by
  obtain ⟨x, hx, rfl⟩ := List.mem_map.1 hy
  cases hc : (idf x == pid) with
  | true => exact absurd hlive (h1 x hc)
  | false =>
    rw [h2 x hc] at hlive ⊢
    simpa using hc

/-- A map that fixes every element failing the predicate produces no element
passing it, as long as none passed before. -/
theorem filter_map_fix_nil {α : Type} (p : α → Bool) (g : α → α) (l : List α)
    (hl : ∀ x ∈ l, p x = false) (hg : ∀ x, p x = false → g x = x) :
    (l.map g).filter p = [] := by
  induction l with
  | nil => rfl
  | cons a t ih =>
    have ha := hl a (List.mem_cons_self a t)
    simp [List.filter_cons, hg a ha, ha,
      ih (fun x hx => hl x (List.mem_cons_of_mem _ hx))]

/-! ## Claim C4: soft-deleted rows in reads and in pre-checks -/

/-- C4 counterexample: `sampleStore` holds the soft-deleted category 20 and
the soft-deleted product 2, yet `create_product` accepts category 20 and the
promotion-by-product listing accepts product 2 — neither pre-check fails
with NotFound as the claim requires. -/
theorem C4_counterexample :
    deletedCategory ∈ sampleStore.categories ∧ deletedCategory.deleted_at = some 3 ∧
    (create_product sampleStore { name := "Hammer", price := 5, category_id := 20 }
      9 7).isOk = true ∧
    deletedProduct ∈ sampleStore.products ∧ deletedProduct.deleted_at = some 2 ∧
    (get_promotions_by_product sampleStore 2).isOk = true := by
  refine ⟨?_, rfl, rfl, ?_, rfl, rfl⟩
  · simp [sampleStore]
  · simp [sampleStore]

/-- C4, amended: for products, categories and reviews, read, update and
delete by id treat a soft-deleted row identically to an absent one
(NotFound); the promotion read, update and delete instead fetch via
`get_promotion_by_id`, which applies no `deleted_at` filter, so they succeed
whenever any row with the id exists — soft-deleted included. The
foreign-entity existence pre-checks — the category lookup of product
creation and the product lookup of the promotion-by-product listing and of
promotion creation — also query by primary key with no `deleted_at` filter,
so a soft-deleted referenced row passes them. -/
theorem C4_soft_deleted_rows :
    (∀ st pid, (∀ p ∈ st.products, p.product_id = pid → p.deleted_at ≠ none) →
      get_product st pid = .error (.notFound s!"Product with ID {pid} not found") ∧
      (∀ now, delete_product st pid now =
        .error (.notFound s!"Product with ID {pid} not found")) ∧
      (∀ data now, update_product st pid data now =
        .error (.notFound s!"Product with ID {pid} not found"))) ∧
    (∀ st cid, (∀ c ∈ st.categories, c.category_id = cid → c.deleted_at ≠ none) →
      get_category st cid = .error (.notFound s!"Category with ID {cid} not found") ∧
      (∀ now, delete_category st cid now =
        .error (.notFound s!"Category with ID {cid} not found"))) ∧
    (∀ st rid, (∀ r ∈ st.reviews, r.review_id = rid → r.deleted_at ≠ none) →
      get_review st rid = .error (.notFound s!"Review with ID {rid} not found") ∧
      (∀ u now, delete_review st u rid now =
        .error (.notFound s!"Review with ID {rid} not found"))) ∧
    (∀ st pid pr, get_promotion_by_id st pid = some pr →
      get_promotion st pid = .ok pr ∧
      (∀ data now, ∃ out, update_promotion st pid data now = .ok out) ∧
      (∀ now, ∃ out, delete_promotion st pid now = .ok out)) ∧
    (∀ st data newId now, ((∃ out, create_product st data newId now = .ok out) ↔
      ∃ c ∈ st.categories, c.category_id = data.category_id)) ∧
    (∀ st pid, ((∃ out, get_promotions_by_product st pid = .ok out) ↔
      ∃ p ∈ st.products, p.product_id = pid)) ∧
    (∀ st data newId now, (∀ l ∈ st.promoLinks, l.promotion_id ≠ newId) →
      ∀ i, (PromoLink.mk newId i ∈ (create_promotion st data newId now).1.promoLinks ↔
        (i ∈ data.product_ids ∧ ∃ p ∈ st.products, p.product_id = i))) := by
  refine ⟨?_, ?_, ?_, ?_, ?_, ?_, ?_⟩
  · intro st pid hdel
    have hnone : st.products.find?
        (fun p => p.product_id == pid && p.deleted_at == none) = none := by
      rw [List.find?_eq_none]
      intro x hx hcon
      simp only [Bool.and_eq_true, beq_iff_eq] at hcon
      exact hdel x hx hcon.1 hcon.2
    exact ⟨by simp [get_product, hnone], fun now => by simp [delete_product, hnone],
      fun data now => by simp [update_product, hnone]⟩
  · intro st cid hdel
    have hnone : st.categories.find?
        (fun c => c.category_id == cid && c.deleted_at == none) = none := by
      rw [List.find?_eq_none]
      intro x hx hcon
      simp only [Bool.and_eq_true, beq_iff_eq] at hcon
      exact hdel x hx hcon.1 hcon.2
    exact ⟨by simp [get_category, hnone],
      fun now => by simp [delete_category, hnone]⟩
  · intro st rid hdel
    have hnone : st.reviews.find?
        (fun r => r.review_id == rid && r.deleted_at == none) = none := by
      rw [List.find?_eq_none]
      intro x hx hcon
      simp only [Bool.and_eq_true, beq_iff_eq] at hcon
      exact hdel x hx hcon.1 hcon.2
    exact ⟨by simp [get_review, hnone],
      fun u now => by simp [delete_review, hnone]⟩
  · intro st pid pr hpr
    refine ⟨by simp [get_promotion, hpr], ?_, ?_⟩
    · intro data now
      exact ⟨_, by simp only [update_promotion, hpr]; rfl⟩
    · intro now
      exact ⟨_, by simp only [delete_promotion, hpr]; rfl⟩
  · intro st data newId now
    cases hf : st.categories.find? (fun c => c.category_id == data.category_id) with
    | none =>
      constructor
      · rintro ⟨out, hout⟩
        simp [create_product, hf] at hout
      · rintro ⟨c, hc, hceq⟩
        have := List.find?_eq_none.1 hf c hc
        simp [hceq] at this
    | some c0 =>
      constructor
      · intro _
        exact ⟨c0, List.mem_of_find?_eq_some hf, by simpa using List.find?_some hf⟩
      · intro _
        exact ⟨_, by simp only [create_product, hf]; rfl⟩
  · intro st pid
    cases hf : st.products.find? (fun p => p.product_id == pid) with
    | none =>
      constructor
      · rintro ⟨out, hout⟩
        simp [get_promotions_by_product, dbGetProduct, hf] at hout
      · rintro ⟨p, hp, hpeq⟩
        have := List.find?_eq_none.1 hf p hp
        simp [hpeq] at this
    | some p0 =>
      constructor
      · intro _
        exact ⟨p0, List.mem_of_find?_eq_some hf, by simpa using List.find?_some hf⟩
      · intro _
        exact ⟨_, by simp only [get_promotions_by_product, dbGetProduct, hf]; rfl⟩
  · intro st data newId now hfresh i
    simp only [create_promotion]
    constructor
    · intro hmem
      rcases List.mem_append.1 hmem with hL | hR
      · exact absurd rfl (hfresh _ hL)
      · obtain ⟨j, hj, hjeq⟩ := List.mem_map.1 hR
        have hji : j = i := by
          simpa [PromoLink.mk.injEq] using hjeq
        subst hji
        refine ⟨List.mem_of_mem_filter hj, ?_⟩
        have hsome : (dbGetProduct st j).isSome = true := (List.mem_filter.1 hj).2
        obtain ⟨p, hp⟩ := Option.isSome_iff_exists.1 hsome
        exact ⟨p, List.mem_of_find?_eq_some hp, by simpa using List.find?_some hp⟩
    · rintro ⟨hmemIds, p, hp, hpeq⟩
      apply List.mem_append.2
      right
      refine List.mem_map.2 ⟨i, ?_, rfl⟩
      refine List.mem_filter.2 ⟨hmemIds, ?_⟩
      rw [dbGetProduct]
      exact List.find?_isSome.2 ⟨p, hp, by simpa using hpeq⟩

/-- C4 witness: in `sampleStore`, product 2 exists only as a soft-deleted
row and reading it by id gives NotFound, while in `sampleStoreNoPromo` the
soft-deleted promotion 300 is still returned by the read by id. -/
theorem C4_soft_deleted_rows_witness :
    get_product sampleStore 2 = .error (.notFound "Product with ID 2 not found") ∧
    get_promotion sampleStoreNoPromo 300 =
      .ok { samplePromotion with deleted_at := some 5 } :=
  ⟨(C4_soft_deleted_rows.1 sampleStore 2 (by decide)).1,
   (C4_soft_deleted_rows.2.2.2.1 sampleStoreNoPromo 300
     { samplePromotion with deleted_at := some 5 } rfl).1⟩

/-! ## Claim C5: duplicate cart adds merge into one row -/

/-- C5: with a live product and no existing cart row for (user, product),
adding quantity `q1` and then quantity `q2` yields exactly one cart row for
the pair, holding quantity `q1 + q2`. -/
theorem C5_cart_double_add (st : Store) (u pid : Nat) (q1 q2 : Int) (id1 id2 : Nat)
    (hp : (st.products.find? (fun p =>
      p.product_id == pid && p.deleted_at == none)).isSome = true)
    (h0 : st.cartItems.find? (fun ci =>
      ci.user_id == u && ci.product_id == pid) = none) :
    ∃ st1 c1 st2 c2,
      add_to_cart st u { product_id := pid, quantity := q1 } id1 = .ok (st1, c1) ∧
      add_to_cart st1 u { product_id := pid, quantity := q2 } id2 = .ok (st2, c2) ∧
      st2.cartItems.filter (fun ci => ci.user_id == u && ci.product_id == pid) =
        [{ cart_item_id := id1, user_id := u, product_id := pid, quantity := q1 + q2 }] ∧
      c2.quantity = q1 + q2 := by
  obtain ⟨p0, hp0⟩ := Option.isSome_iff_exists.1 hp
  have hall : ∀ x ∈ st.cartItems, (x.user_id == u && x.product_id == pid) = false := by
    intro x hx
    cases hb : (x.user_id == u && x.product_id == pid) with
    | false => rfl
    | true => exact absurd hb (List.find?_eq_none.1 h0 x hx)
  have h1 : add_to_cart st u { product_id := pid, quantity := q1 } id1 =
      .ok ({ st with
        cartItems := st.cartItems ++ [CartItem.mk id1 u pid q1] },
        CartItem.mk id1 u pid q1) := by
    simp [add_to_cart, hp0, h0]
  have hfind2 : (st.cartItems ++ [CartItem.mk id1 u pid q1]).find?
      (fun ci => ci.user_id == u && ci.product_id == pid) =
      some (CartItem.mk id1 u pid q1) := by
    rw [List.find?_append, h0]
    simp
  have h2 : add_to_cart { st with
        cartItems := st.cartItems ++ [CartItem.mk id1 u pid q1] }
      u { product_id := pid, quantity := q2 } id2 =
      .ok ({ st with
        cartItems := (st.cartItems ++ [CartItem.mk id1 u pid q1]).map
          (fun ci => if ci.user_id == u && ci.product_id == pid
            then { ci with quantity := ci.quantity + q2 } else ci) },
        CartItem.mk id1 u pid (q1 + q2)) := by
    simp [add_to_cart, hp0, hfind2]
  refine ⟨_, _, _, _, h1, h2, ?_, rfl⟩
  rw [List.map_append, List.filter_append]
  rw [filter_map_fix_nil _ _ _ hall (fun x hx => by simp [hx])]
  simp

/-- C5 witness: user 7 adds product 1 with quantity 3, then quantity 2, onto
the empty cart of `sampleStore`: one row with quantity 5 results. -/
theorem C5_cart_double_add_witness :
    ∃ st1 c1 st2 c2,
      add_to_cart sampleStore 7 { product_id := 1, quantity := 3 } 50 = .ok (st1, c1) ∧
      add_to_cart st1 7 { product_id := 1, quantity := 2 } 51 = .ok (st2, c2) ∧
      st2.cartItems.filter (fun ci => ci.user_id == 7 && ci.product_id == 1) =
        [{ cart_item_id := 50, user_id := 7, product_id := 1, quantity := 5 }] ∧
      c2.quantity = 5 :=
  C5_cart_double_add sampleStore 7 1 3 2 50 51 (by rfl) (by rfl)

/-! ## Claim C1: the soft-delete lifecycle -/

/-- Items of `list_promotions` are live rows of the promotions table. -/
theorem list_promotions_items_sub (st : Store) (a : Bool) (b : Option Nat)
    (s li n2 : Nat) (q : Promotion) (hq : q ∈ (list_promotions st a b s li n2).1) :
    q ∈ st.promotions ∧ (q.deleted_at == none) = true := by
  simp only [list_promotions] at hq
  have hq2 := List.mem_of_mem_drop (List.mem_of_mem_take hq)
  cases b with
  | none =>
    cases a with
    | true =>
      simp only [if_true] at hq2
      have hq3 := List.mem_of_mem_filter hq2
      have hlv := List.of_mem_filter hq3
      exact ⟨List.mem_of_mem_filter hq3, hlv⟩
    | false =>
      simp only [Bool.false_eq_true, if_false] at hq2
      have hlv := List.of_mem_filter hq2
      exact ⟨List.mem_of_mem_filter hq2, hlv⟩
  | some pid2 =>
    have hq25 := List.mem_of_mem_filter hq2
    cases a with
    | true =>
      simp only [if_true] at hq25
      have hq3 := List.mem_of_mem_filter hq25
      have hlv := List.of_mem_filter hq3
      exact ⟨List.mem_of_mem_filter hq3, hlv⟩
    | false =>
      simp only [Bool.false_eq_true, if_false] at hq25
      have hlv := List.of_mem_filter hq25
      exact ⟨List.mem_of_mem_filter hq25, hlv⟩

/-- C1 counterexample: promotion 300 of `sampleStore` is soft-deleted at
time 5 (the row is kept, only `deleted_at` is set), yet the subsequent read
by id succeeds and returns the soft-deleted promotion instead of NotFound:
`get_promotion_by_id` applies no `deleted_at` filter. -/
theorem C1_counterexample :
    delete_promotion sampleStore 300 5 = Except.ok sampleStoreNoPromo ∧
    get_promotion sampleStoreNoPromo 300 =
      Except.ok { samplePromotion with deleted_at := some 5 } :=
  ⟨rfl, rfl⟩

/-- C1, amended: after a successful delete, the row is kept (only
`deleted_at` is set) for all four entities, and the entity disappears from
the default listings; a read by id returns NotFound for products,
categories and reviews — but for promotions the read by id still succeeds
and returns the soft-deleted row, because `get_promotion_by_id` does not
filter `deleted_at`. -/
theorem C1_soft_delete_lifecycle :
    (∀ (st st2 : Store) (pid now : Nat), delete_product st pid now = .ok st2 →
      get_product st2 pid = .error (.notFound s!"Product with ID {pid} not found") ∧
      st2.products.length = st.products.length ∧
      (∃ p ∈ st2.products, p.product_id = pid ∧ p.deleted_at = some now) ∧
      (∀ nm mp xp mr cid page ps q,
        q ∈ (list_products st2 nm mp xp mr cid page ps).items →
        q.product_id ≠ pid)) ∧
    (∀ (st st2 : Store) (cid now : Nat), delete_category st cid now = .ok st2 →
      get_category st2 cid = .error (.notFound s!"Category with ID {cid} not found") ∧
      st2.categories.length = st.categories.length ∧
      (∃ c ∈ st2.categories, c.category_id = cid ∧ c.deleted_at = some now) ∧
      (∀ page ps q, q ∈ (get_categories st2 page ps).items → q.category_id ≠ cid)) ∧
    (∀ (st st2 : Store) (u rid now : Nat), delete_review st u rid now = .ok st2 →
      get_review st2 rid = .error (.notFound s!"Review with ID {rid} not found") ∧
      st2.reviews.length = st.reviews.length ∧
      (∃ r ∈ st2.reviews, r.review_id = rid ∧ r.deleted_at = some now) ∧
      (∀ pidF uidF mrr xrr page ps q,
        q ∈ (list_reviews st2 pidF uidF mrr xrr page ps).items →
        q.review_id ≠ rid)) ∧
    (∀ (st st2 : Store) (pid now : Nat), delete_promotion st pid now = .ok st2 →
      st2.promotions.length = st.promotions.length ∧
      (∃ pr ∈ st2.promotions, pr.promotion_id = pid ∧ pr.deleted_at = some now) ∧
      (∀ a b s li n2 q, q ∈ (list_promotions st2 a b s li n2).1 →
        q.promotion_id ≠ pid) ∧
      (∀ n2 q, q ∈ get_active_promotions st2 n2 → q.promotion_id ≠ pid) ∧
      (∀ p2 q, q ∈ get_promotions_for_product st2 p2 → q.promotion_id ≠ pid) ∧
      (∃ pr, get_promotion st2 pid = .ok pr ∧ pr.deleted_at = some now)) := by
  refine ⟨?_, ?_, ?_, ?_⟩
  · intro st st2 pid now h
    cases hfind : st.products.find?
        (fun p => p.product_id == pid && p.deleted_at == none) with
    | none => simp [delete_product, hfind] at h
    | some x =>
      have hstep : delete_product st pid now = .ok { st with
          products := st.products.map (fun p =>
            if p.product_id == pid && p.deleted_at == none
            then { p with deleted_at := some now } else p) } := by
        unfold delete_product
        rw [hfind]
      rw [hstep] at h
      obtain rfl := Except.ok.inj h
      have hpx := List.find?_some hfind
      have hmem := List.mem_of_find?_eq_some hfind
      have h1 : ∀ p : Product, (p.product_id == pid && p.deleted_at == none) = true →
          (if p.product_id == pid && p.deleted_at == none
            then { p with deleted_at := some now } else p).deleted_at ≠ none := by
        intro p hp
        simp [hp]
      have h2 : ∀ p : Product, (p.product_id == pid && p.deleted_at == none) = false →
          (if p.product_id == pid && p.deleted_at == none
            then { p with deleted_at := some now } else p) = p := by
        intro p hp
        simp [hp]
      have hnone : (st.products.map (fun p =>
          if p.product_id == pid && p.deleted_at == none
          then { p with deleted_at := some now } else p)).find?
          (fun p => p.product_id == pid && p.deleted_at == none) = none :=
        marked_find?_none (fun p => p.product_id) (fun p => p.deleted_at) _ pid
          st.products h1 h2
      refine ⟨by simp only [get_product, hnone], by simp, ?_, ?_⟩
      · refine ⟨{ x with deleted_at := some now }, ?_, ?_, rfl⟩
        · have h5 := List.mem_map_of_mem (fun p : Product =>
            if p.product_id == pid && p.deleted_at == none
            then { p with deleted_at := some now } else p) hmem
          simpa [hpx] using h5
        · simp only [Bool.and_eq_true, beq_iff_eq] at hpx
          simpa using hpx.1
      · intro nm mp xp mr cid page ps q hq
        simp only [list_products] at hq
        have hq2 := List.mem_of_mem_drop (List.mem_of_mem_take hq)
        have hq3 := List.mem_of_mem_filter hq2
        have hq4 := List.mem_of_mem_filter hq3
        have hlive := List.of_mem_filter hq3
        exact marked_live_ne (fun p => p.product_id) (fun p => p.deleted_at) _ pid
          st.products h1 h2 q hq4 (by simpa using hlive)
  · intro st st2 cid now h
    cases hfind : st.categories.find?
        (fun c => c.category_id == cid && c.deleted_at == none) with
    | none => simp [delete_category, hfind] at h
    | some x =>
      have hstep : delete_category st cid now = .ok { st with
          categories := st.categories.map (fun c =>
            if c.category_id == cid && c.deleted_at == none
            then { c with deleted_at := some now } else c) } := by
        unfold delete_category
        rw [hfind]
      rw [hstep] at h
      obtain rfl := Except.ok.inj h
      have hpx := List.find?_some hfind
      have hmem := List.mem_of_find?_eq_some hfind
      have h1 : ∀ c : Category, (c.category_id == cid && c.deleted_at == none) = true →
          (if c.category_id == cid && c.deleted_at == none
            then { c with deleted_at := some now } else c).deleted_at ≠ none := by
        intro c hc
        simp [hc]
      have h2 : ∀ c : Category, (c.category_id == cid && c.deleted_at == none) = false →
          (if c.category_id == cid && c.deleted_at == none
            then { c with deleted_at := some now } else c) = c := by
        intro c hc
        simp [hc]
      have hnone : (st.categories.map (fun c =>
          if c.category_id == cid && c.deleted_at == none
          then { c with deleted_at := some now } else c)).find?
          (fun c => c.category_id == cid && c.deleted_at == none) = none :=
        marked_find?_none (fun c => c.category_id) (fun c => c.deleted_at) _ cid
          st.categories h1 h2
      refine ⟨by simp only [get_category, hnone], by simp, ?_, ?_⟩
      · refine ⟨{ x with deleted_at := some now }, ?_, ?_, rfl⟩
        · have h5 := List.mem_map_of_mem (fun c : Category =>
            if c.category_id == cid && c.deleted_at == none
            then { c with deleted_at := some now } else c) hmem
          simpa [hpx] using h5
        · simp only [Bool.and_eq_true, beq_iff_eq] at hpx
          simpa using hpx.1
      · intro page ps q hq
        simp only [get_categories] at hq
        have hq2 := List.mem_of_mem_drop (List.mem_of_mem_take hq)
        have hq3 := List.mem_mergeSort.1 hq2
        have hq4 := List.mem_of_mem_filter hq3
        have hlive := List.of_mem_filter hq3
        exact marked_live_ne (fun c => c.category_id) (fun c => c.deleted_at) _ cid
          st.categories h1 h2 q hq4 (by simpa using hlive)
  · intro st st2 u rid now h
    cases hfind : st.reviews.find?
        (fun r => r.review_id == rid && r.deleted_at == none) with
    | none => simp [delete_review, hfind] at h
    | some x =>
      cases hu : (x.user_id != u) with
      | true =>
        have hstep : delete_review st u rid now = .error .forbidden := by
          unfold delete_review
          rw [hfind]
          simp [hu]
        rw [hstep] at h
        exact absurd h (by simp)
      | false =>
        have hstep : delete_review st u rid now = .ok { st with
            reviews := st.reviews.map (fun q =>
              if q.review_id == rid && q.deleted_at == none
              then { q with deleted_at := some now } else q) } := by
          unfold delete_review
          rw [hfind]
          simp [hu]
        rw [hstep] at h
        obtain rfl := Except.ok.inj h
        have hpx := List.find?_some hfind
        have hmem := List.mem_of_find?_eq_some hfind
        have h1 : ∀ r : Review, (r.review_id == rid && r.deleted_at == none) = true →
            (if r.review_id == rid && r.deleted_at == none
              then { r with deleted_at := some now } else r).deleted_at ≠ none := by
          intro r hr
          simp [hr]
        have h2 : ∀ r : Review, (r.review_id == rid && r.deleted_at == none) = false →
            (if r.review_id == rid && r.deleted_at == none
              then { r with deleted_at := some now } else r) = r := by
          intro r hr
          simp [hr]
        have hnone : (st.reviews.map (fun r =>
            if r.review_id == rid && r.deleted_at == none
            then { r with deleted_at := some now } else r)).find?
            (fun r => r.review_id == rid && r.deleted_at == none) = none :=
          marked_find?_none (fun r => r.review_id) (fun r => r.deleted_at) _ rid
            st.reviews h1 h2
        refine ⟨by simp only [get_review, hnone], by simp, ?_, ?_⟩
        · refine ⟨{ x with deleted_at := some now }, ?_, ?_, rfl⟩
          · have h5 := List.mem_map_of_mem (fun r : Review =>
              if r.review_id == rid && r.deleted_at == none
              then { r with deleted_at := some now } else r) hmem
            simpa [hpx] using h5
          · simp only [Bool.and_eq_true, beq_iff_eq] at hpx
            simpa using hpx.1
        · intro pidF uidF mrr xrr page ps q hq
          simp only [list_reviews] at hq
          have hq2 := List.mem_of_mem_drop (List.mem_of_mem_take hq)
          have hq3 := List.mem_mergeSort.1 hq2
          have hq4 := List.mem_of_mem_filter hq3
          have hpred := List.of_mem_filter hq3
          have hlive : (q.deleted_at == none) = true := by
            simp only [reviewListPred, Bool.and_eq_true] at hpred
            exact hpred.1.1.1.1
          exact marked_live_ne (fun r => r.review_id) (fun r => r.deleted_at) _ rid
            st.reviews h1 h2 q hq4 (by simpa using hlive)
  · intro st st2 pid now h
    cases hfind : st.promotions.find? (fun pr => pr.promotion_id == pid) with
    | none => simp [delete_promotion, get_promotion_by_id, hfind] at h
    | some x =>
      have hstep : delete_promotion st pid now = .ok { st with
          promotions := st.promotions.map (fun pr =>
            if pr.promotion_id == pid
            then { pr with deleted_at := some now } else pr) } := by
        unfold delete_promotion get_promotion_by_id
        rw [hfind]
      rw [hstep] at h
      obtain rfl := Except.ok.inj h
      have hpx := List.find?_some hfind
      have hmem := List.mem_of_find?_eq_some hfind
      have h1 : ∀ pr : Promotion, (pr.promotion_id == pid) = true →
          (if pr.promotion_id == pid
            then { pr with deleted_at := some now } else pr).deleted_at ≠ none := by
        intro pr hpr
        simp [hpr]
      have h2 : ∀ pr : Promotion, (pr.promotion_id == pid) = false →
          (if pr.promotion_id == pid
            then { pr with deleted_at := some now } else pr) = pr := by
        intro pr hpr
        simp [hpr]
      refine ⟨by simp, ?_, ?_, ?_, ?_, ?_⟩
      · refine ⟨{ x with deleted_at := some now }, ?_, ?_, rfl⟩
        · have h5 := List.mem_map_of_mem (fun pr : Promotion =>
            if pr.promotion_id == pid
            then { pr with deleted_at := some now } else pr) hmem
          simpa [hpx] using h5
        · simpa using hpx
      · intro a b s li n2 q hq
        obtain ⟨hq4, hlive⟩ := list_promotions_items_sub _ a b s li n2 q hq
        exact marked_all_live_ne (fun pr => pr.promotion_id)
          (fun pr => pr.deleted_at) _ pid st.promotions h1 h2 q hq4
          (by simpa using hlive)
      · intro n2 q hq
        simp only [get_active_promotions] at hq
        have hq4 := List.mem_of_mem_filter hq
        have hpred := List.of_mem_filter hq
        have hlive : (q.deleted_at == none) = true := by
          simp only [Bool.and_eq_true] at hpred
          exact hpred.2
        exact marked_all_live_ne (fun pr => pr.promotion_id)
          (fun pr => pr.deleted_at) _ pid st.promotions h1 h2 q hq4
          (by simpa using hlive)
      · intro p2 q hq
        simp only [get_promotions_for_product] at hq
        have hq4 := List.mem_of_mem_filter hq
        have hpred := List.of_mem_filter hq
        have hlive : (q.deleted_at == none) = true := by
          simp only [Bool.and_eq_true] at hpred
          exact hpred.2
        exact marked_all_live_ne (fun pr => pr.promotion_id)
          (fun pr => pr.deleted_at) _ pid st.promotions h1 h2 q hq4
          (by simpa using hlive)
      · have hsame : ∀ pr : Promotion, ((if pr.promotion_id == pid
            then { pr with deleted_at := some now } else pr).promotion_id == pid) =
            (pr.promotion_id == pid) := by
          intro pr
          cases hc : pr.promotion_id == pid <;> simp [hc]
        have hfind2 := find?_map_same (fun pr => pr.promotion_id == pid)
          (fun pr => if pr.promotion_id == pid
            then { pr with deleted_at := some now } else pr) st.promotions hsame
        rw [hfind] at hfind2
        refine ⟨{ x with deleted_at := some now }, ?_, rfl⟩
        have hpxp : x.promotion_id = pid := by simpa using hpx
        simp only [get_promotion, get_promotion_by_id, hfind2, Option.map_some]
        simp [hpxp]

/-- C1 witness: deleting product 1 of `sampleStore` succeeds, and the
subsequent read by id returns NotFound. -/
theorem C1_soft_delete_lifecycle_witness :
    ∃ st2, delete_product sampleStore 1 5 = .ok st2 ∧
      get_product st2 1 = .error (.notFound "Product with ID 1 not found") := by
  refine ⟨_, rfl, ?_⟩
  exact (C1_soft_delete_lifecycle.1 sampleStore _ 1 5 rfl).1

/-! ## Claim C8: the two association-replacement policies -/

/-- The product loop of the dedicated update aborts at the first missing id
(400 naming it). -/
theorem lookupProducts_first_missing (st : Store) (ids : List Nat) (m : Nat)
    (h : ids.find? (fun i => (dbGetProduct st i).isNone) = some m) :
    lookupProducts st ids = .error (.badRequest s!"Product with ID {m} not found") := by
  induction ids with
  | nil => simp [List.find?] at h
  | cons a rest ih =>
    cases hg : dbGetProduct st a with
    | none =>
      rw [List.find?_cons_of_pos _ (by simp [hg])] at h
      obtain rfl : a = m := by simpa using h
      simp [lookupProducts, hg]
    | some p =>
      rw [List.find?_cons_of_neg _ (by simp [hg])] at h
      simp [lookupProducts, hg, ih h, Except.map]

/-- When every id resolves, the product loop returns the ids unchanged. -/
theorem lookupProducts_all_found (st : Store) (ids : List Nat)
    (h : ∀ i ∈ ids, (dbGetProduct st i).isSome = true) :
    lookupProducts st ids = .ok ids := by
  induction ids with
  | nil => rfl
  | cons a rest ih =>
    obtain ⟨p, hp⟩ := Option.isSome_iff_exists.1 (h a (List.mem_cons_self a rest))
    simp [lookupProducts, hp, ih (fun i hi => h i (List.mem_cons_of_mem a hi)),
      Except.map]

/-- Replacing a promotion's links leaves exactly the new links for it. -/
theorem filter_links_replaced (pid : Nat) (old : List PromoLink) (ids : List Nat) :
    ((old.filter (fun l => !(l.promotion_id == pid))) ++
      ids.map (fun i => PromoLink.mk pid i)).filter
        (fun l => l.promotion_id == pid) =
      ids.map (fun i => PromoLink.mk pid i) := by
  rw [List.filter_append]
  have h1 : (old.filter (fun l => !(l.promotion_id == pid))).filter
      (fun l => l.promotion_id == pid) = [] := by
    rw [List.filter_filter]
    apply List.filter_eq_nil_iff.2
    intro a ha
    cases h : a.promotion_id == pid <;> simp [h]
  have h2 : (ids.map (fun i => PromoLink.mk pid i)).filter
      (fun l => l.promotion_id == pid) = ids.map (fun i => PromoLink.mk pid i) := by
    apply List.filter_eq_self.2
    intro a ha
    obtain ⟨i, hi, rfl⟩ := List.mem_map.1 ha
    simp
  rw [h1, h2]
  simp

/-- C8: the dedicated `update_promotion_products` fails the whole operation
with 400 naming the first missing product id (the association therefore
stays unchanged, as nothing is committed) and, when every id exists,
replaces the association with exactly the requested ids; `create_promotion`
and the general `update_promotion` instead skip missing ids silently and
save only the ids that exist. -/
theorem C8_association_policies :
    (∀ st pid ids now m, (get_promotion_by_id st pid).isSome = true →
      ids.find? (fun i => (dbGetProduct st i).isNone) = some m →
      update_promotion_products st pid ids now =
        .error (.badRequest s!"Product with ID {m} not found")) ∧
    (∀ st pid ids now, (get_promotion_by_id st pid).isSome = true →
      (∀ i ∈ ids, (dbGetProduct st i).isSome = true) →
      ∃ st2 pr2, update_promotion_products st pid ids now = .ok (st2, pr2) ∧
        st2.promoLinks.filter (fun l => l.promotion_id == pid) =
          ids.map (fun i => PromoLink.mk pid i)) ∧
    (∀ st data newId now,
      (create_promotion st data newId now).1.promoLinks =
        st.promoLinks ++ (data.product_ids.filter
          (fun i => (dbGetProduct st i).isSome)).map (fun i => PromoLink.mk newId i)) ∧
    (∀ st pid data ids now, (get_promotion_by_id st pid).isSome = true →
      data.product_ids = some ids →
      ∃ st2 pr2, update_promotion st pid data now = .ok (st2, pr2) ∧
        st2.promoLinks.filter (fun l => l.promotion_id == pid) =
          (ids.filter (fun i => (dbGetProduct st i).isSome)).map
            (fun i => PromoLink.mk pid i)) := by
  refine ⟨?_, ?_, ?_, ?_⟩
  · intro st pid ids now m hps hfind
    obtain ⟨pr, hpr⟩ := Option.isSome_iff_exists.1 hps
    simp [update_promotion_products, hpr,
      lookupProducts_first_missing st ids m hfind]
  · intro st pid ids now hps hall
    obtain ⟨pr, hpr⟩ := Option.isSome_iff_exists.1 hps
    have hok := lookupProducts_all_found st ids hall
    have hget : update_promotion_products st pid ids now =
        .ok ({ st with
          promotions := st.promotions.map
            (fun q => if q.promotion_id == pid
              then { pr with updated_at := now } else q),
          promoLinks := (st.promoLinks.filter (fun l => !(l.promotion_id == pid))) ++
            ids.map (fun i => PromoLink.mk pid i) },
          { pr with updated_at := now }) := by
      simp [update_promotion_products, hpr, hok]
    exact ⟨_, _, hget, filter_links_replaced pid st.promoLinks ids⟩
  · intro st data newId now
    rfl
  · intro st pid data ids now hps hids
    obtain ⟨pr, hpr⟩ := Option.isSome_iff_exists.1 hps
    have hget : update_promotion st pid data now =
        .ok ({ st with
          promotions := st.promotions.map
            (fun q => if q.promotion_id == pid
              then { pr with
                name := data.name.getD pr.name,
                description := data.description.getD pr.description,
                url := match data.url with | some u => some u | none => pr.url,
                start_date := data.start_date.getD pr.start_date,
                end_date := data.end_date.getD pr.end_date,
                updated_at := now } else q),
          promoLinks := (st.promoLinks.filter (fun l => !(l.promotion_id == pid))) ++
            (ids.filter (fun i => (dbGetProduct st i).isSome)).map
              (fun i => PromoLink.mk pid i) },
          { pr with
            name := data.name.getD pr.name,
            description := data.description.getD pr.description,
            url := match data.url with | some u => some u | none => pr.url,
            start_date := data.start_date.getD pr.start_date,
            end_date := data.end_date.getD pr.end_date,
            updated_at := now }) := by
      simp [update_promotion, hpr, hids]
    exact ⟨_, _, hget, filter_links_replaced pid st.promoLinks
      (ids.filter (fun i => (dbGetProduct st i).isSome))⟩

/-- C8 witness: on `sampleStore`, updating promotion 300's products to
[1, 99] fails with 400 naming 99; the product id 99 does not exist. -/
theorem C8_association_policies_witness :
    update_promotion_products sampleStore 300 [1, 99] 8 =
      .error (.badRequest "Product with ID 99 not found") :=
  C8_association_policies.1 sampleStore 300 [1, 99] 8 99 (by rfl) (by rfl)

/-! ## Claim C10: cart rows are physically deleted and carry no lifecycle
fields -/

/-- C10: a cart row is fully determined by its id, owner, product and
quantity (the entity has no created/updated/deleted columns); removing one
item physically erases its row, and clearing the cart physically erases
every row of the user. -/
theorem C10_cart_items_physical :
    (∀ a b : CartItem, a.cart_item_id = b.cart_item_id → a.user_id = b.user_id →
      a.product_id = b.product_id → a.quantity = b.quantity → a = b) ∧
    (∀ st u cid st2, remove_from_cart st u cid = .ok st2 →
      st2.cartItems = st.cartItems.eraseP
        (fun ci => ci.cart_item_id == cid && ci.user_id == u) ∧
      st2.cartItems.length + 1 = st.cartItems.length ∧
      (st.cartItems.Pairwise (fun a b => a.cart_item_id ≠ b.cart_item_id) →
        ∀ ci ∈ st2.cartItems, ¬(ci.cart_item_id = cid ∧ ci.user_id = u))) ∧
    (∀ st u, (clear_cart st u).cartItems =
        st.cartItems.filter (fun ci => !(ci.user_id == u)) ∧
      (∀ ci ∈ (clear_cart st u).cartItems, ci.user_id ≠ u)) := by
  refine ⟨?_, ?_, ?_⟩
  · intro a b h1 h2 h3 h4
    cases a
    cases b
    simp_all
  · intro st u cid st2 h
    cases hfind : st.cartItems.find?
        (fun ci => ci.cart_item_id == cid && ci.user_id == u) with
    | none => simp [remove_from_cart, hfind] at h
    | some x =>
      simp only [remove_from_cart, hfind, Except.ok.injEq] at h
      subst h
      refine ⟨rfl, ?_, ?_⟩
      · have hmem := List.mem_of_find?_eq_some hfind
        have hlen := List.length_eraseP_of_mem hmem (List.find?_some hfind)
        have hpos := List.length_pos_of_mem hmem
        simp only [hlen]
        omega
      · intro hpw ci hci hprop
        obtain ⟨hcid, hu⟩ := hprop
        have hpci : (ci.cart_item_id == cid && ci.user_id == u) = true := by
          simp [hcid, hu]
        obtain ⟨a2, l₁, l₂, hnl₁, hpa2, hldecomp, herase⟩ :=
          List.exists_of_eraseP (List.mem_of_find?_eq_some hfind)
            (List.find?_some hfind)
        simp only [herase] at hci
        rcases List.mem_append.1 hci with hL | hR
        · exact hnl₁ ci hL hpci
        · rw [hldecomp] at hpw
          rw [List.pairwise_append] at hpw
          have hRa := (List.pairwise_cons.1 hpw.2.1).1 ci hR
          have ha2id : a2.cart_item_id = cid := by
            simp only [Bool.and_eq_true, beq_iff_eq] at hpa2
            exact hpa2.1
          exact hRa (by rw [ha2id, hcid])
  · intro st u
    refine ⟨rfl, ?_⟩
    intro ci hci
    have := List.of_mem_filter hci
    simpa using this

/-- C10 witness: clearing the cart of a user holding one row erases it
physically — the stored rows equal the filtered list, which is empty here. -/
theorem C10_cart_items_physical_witness :
    (clear_cart cartStore 7).cartItems =
      [sampleCartItem].filter (fun ci => !(ci.user_id == 7)) :=
  (C10_cart_items_physical.2.2 cartStore 7).1

end Shop
